import Mathlib

/-!
Shallow embedding of the provider proxying layer of the blockchain-api
repository (src/providers/allnodes.rs, src/providers/publicnode.rs) and of
the exchange feature gate (src/handlers/wallet/exchanges/mod.rs).

External collaborators are passed in as function parameters:
  * the outbound HTTP client (`hyper::Client::request`) becomes an
    `upstream : OutboundRequest -> Except Nat (Nat × Bytes)` oracle
    (error codes are opaque naturals; a success is a status and body);
  * `serde_json::from_slice::<jsonrpc::Response>` becomes a
    `parse : Bytes -> Option JsonrpcResponse` oracle;
  * `async_tungstenite::tokio::connect_async` becomes a
    `connect : String -> Except Nat Unit` oracle.
Each proxy additionally records the list of outbound requests it issued, so
that "issues no network call" and "exactly one outbound request" are
directly statable.
-/

/-- Byte string, modelling `hyper::body::Bytes` as a list of bytes. -/
abbrev Bytes := List Nat

/-- The `error` member of a parsed `jsonrpc::Response`: a code and a message. -/
structure JsonrpcError where
  code : Int
  message : String
deriving DecidableEq, Repr

/-- A parsed `jsonrpc::Response`; only the optional `error` member is ever
inspected by the proxying layer (`json_response.error`). -/
structure JsonrpcResponse where
  error : Option JsonrpcError
deriving DecidableEq, Repr

/-- An axum `Response` as observed by this layer: HTTP status, body bytes and
the `Content-Type` header (the only header this code touches). -/
structure Response where
  status : Nat
  body : Bytes
  contentType : Option String
deriving DecidableEq, Repr

/-- The variants of `RpcError` that the embedded code can produce.
`Transport` models the `?` on `self.client.request(..)` / body collection
(hyper errors), `AxumTungstenite` the mapped `connect_async` failure. -/
inductive RpcError where
  | ChainNotFound
  | Transport (e : Nat)
  | AxumTungstenite (e : Nat)
deriving DecidableEq, Repr

/-- An outbound HTTP request built by a proxy: method, URI, the
`Content-Type` header value, and the body bytes. -/
structure OutboundRequest where
  method : String
  uri : String
  contentType : String
  body : Bytes
deriving DecidableEq, Repr

/-- Result of one call to an HTTP proxy: the returned `RpcResult<Response>`
plus the list of outbound requests issued during the call. -/
structure ProxyOutcome where
  result : Except RpcError Response
  requests : List OutboundRequest
deriving Repr

/-- Result of one call to the WebSocket proxy: the returned result (`.ok`
carries the upstream URI the bridge was opened to), the list of upstream
connection attempts, and whether the inbound upgrade was completed
(`ws.on_upgrade` reached). -/
structure WsProxyOutcome where
  result : Except RpcError String
  connectAttempts : List String
  upgradeCompleted : Bool
deriving Repr

/-- Prefix test on character lists, used by the modelled message
classifiers. -/
def listIsPrefix : List Char → List Char → Bool
  | [], _ => true
  | _ :: _, [] => false
  | p :: ps, c :: cs => p == c && listIsPrefix ps cs

/-- Substring occurrence test on character lists: `pat` occurs somewhere in
the list. -/
def containsSub (pat : List Char) : List Char → Bool
  | [] => listIsPrefix pat []
  | c :: rest => listIsPrefix pat (c :: rest) || containsSub pat rest

/-- Lower-casing of a string, character by character. -/
def lowerStr (s : String) : String :=
  String.mk (s.data.map Char.toLower)

/-- Substring test used by the modelled message classifiers: `pat` occurs in
`s`. -/
def strContains (s pat : String) : Bool :=
  containsSub pat.data s.data

/-- Modelled from the spec: `is_internal_error_rpc_code` lives in
src/providers/mod.rs, which is not among the given sources. Per spec §4.4 it
is true for a fixed, closed set of JSON-RPC codes signalling internal/node
failure: the generic internal error `-32603` and the server-error range
`-32099..=-32000`. -/
def is_internal_error_rpc_code (code : Int) : Bool :=
  code == -32603 || (decide ((-32099 : Int) ≤ code) && decide (code ≤ (-32000 : Int)))

/-- Modelled from the spec: `is_rate_limited_error_rpc_message` lives in
src/providers/mod.rs, which is not among the given sources. Per spec §4.4 it
is a case-insensitive keyword match against rate-limit phrasing
("rate limit", "too many requests", "quota"). -/
def is_rate_limited_error_rpc_message (message : String) : Bool :=
  strContains (lowerStr message) "rate limit" ||
  strContains (lowerStr message) "too many requests" ||
  strContains (lowerStr message) "quota"

/-- Modelled from the spec: `is_node_error_rpc_message` lives in
src/providers/mod.rs, which is not among the given sources. Per spec §4.4 it
matches node-health phrasing ("header not found", "block not found",
sync-state errors) distinct from rate limiting. -/
def is_node_error_rpc_message (message : String) : Bool :=
  strContains (lowerStr message) "header not found" ||
  strContains (lowerStr message) "block not found" ||
  strContains (lowerStr message) "syncing"

/-- `http::StatusCode::is_success`: 200..=299. -/
def statusIsSuccess (s : Nat) : Bool :=
  decide (200 ≤ s) && decide (s ≤ 299)

/-- `(status, body).into_response()` for a `Bytes` body: axum gives the byte
body the `Content-Type: application/octet-stream` header. This models the two
early returns in `AllnodesProvider::proxy` (lines 139 and 142-144). -/
def bytesResponse (status : Nat) (body : Bytes) : Response :=
  { status := status, body := body, contentType := some "application/octet-stream" }

/-- The final pass-through envelope of both HTTP proxies:
`(status, body).into_response()` followed by
`headers_mut().insert("Content-Type", "application/json")`. -/
def passthroughResponse (status : Nat) (body : Bytes) : Response :=
  { status := status, body := body, contentType := some "application/json" }

/-- `format!("https://{}.allnodes.me:8545/{}", chain, &self.api_key)`. -/
def allnodesHttpUri (chain api_key : String) : String :=
  "https://" ++ chain ++ ".allnodes.me:8545/" ++ api_key

/-- The outbound request `AllnodesProvider::proxy` builds: POST to the
Allnodes URI with `Content-Type: application/json` and the inbound body. -/
def allnodesRequest (chain api_key : String) (body : Bytes) : OutboundRequest :=
  { method := "POST", uri := allnodesHttpUri chain api_key,
    contentType := "application/json", body := body }

/-- `AllnodesProvider::proxy` (src/providers/allnodes.rs lines 112-156).
`supported_chains` is the provider's chain map as an association list,
`parse` models `serde_json::from_slice::<jsonrpc::Response>`, `upstream`
models the hyper client call (status plus collected body on success). -/
def AllnodesProvider.proxy (supported_chains : List (String × String))
    (api_key : String) (parse : Bytes → Option JsonrpcResponse)
    (upstream : OutboundRequest → Except Nat (Nat × Bytes))
    (chain_id : String) (body : Bytes) : ProxyOutcome :=
  match supported_chains.lookup chain_id with
  | none => { result := .error .ChainNotFound, requests := [] }
  | some chain =>
    let req := allnodesRequest chain api_key body
    match upstream req with
    | .error e => { result := .error (.Transport e), requests := [req] }
    | .ok (status, rbody) =>
      if statusIsSuccess status then
        match parse rbody with
        | some json_response =>
          match json_response.error with
          | some error =>
            if is_internal_error_rpc_code error.code then
              if is_rate_limited_error_rpc_message error.message then
                { result := .ok (bytesResponse 429 rbody), requests := [req] }
              else if is_node_error_rpc_message error.message then
                { result := .ok (bytesResponse 500 rbody), requests := [req] }
              else
                { result := .ok (passthroughResponse status rbody), requests := [req] }
            else
              { result := .ok (passthroughResponse status rbody), requests := [req] }
          | none => { result := .ok (passthroughResponse status rbody), requests := [req] }
        | none => { result := .ok (passthroughResponse status rbody), requests := [req] }
      else
        { result := .ok (passthroughResponse status rbody), requests := [req] }

/-- `format!("https://{chain}.publicnode.com")`. -/
def publicnodeUri (chain : String) : String :=
  "https://" ++ chain ++ ".publicnode.com"

/-- The outbound request `PublicnodeProvider::proxy` builds. -/
def publicnodeRequest (chain : String) (body : Bytes) : OutboundRequest :=
  { method := "POST", uri := publicnodeUri chain,
    contentType := "application/json", body := body }

/-- `PublicnodeProvider::proxy` (src/providers/publicnode.rs lines 47-69):
chain lookup, one outbound POST, unconditional pass-through of status and
body with `Content-Type` forced to `application/json`. No JSON-RPC body
inspection of any kind. -/
def PublicnodeProvider.proxy (supported_chains : List (String × String))
    (upstream : OutboundRequest → Except Nat (Nat × Bytes))
    (chain_id : String) (body : Bytes) : ProxyOutcome :=
  match supported_chains.lookup chain_id with
  | none => { result := .error .ChainNotFound, requests := [] }
  | some chain =>
    let req := publicnodeRequest chain body
    match upstream req with
    | .error e => { result := .error (.Transport e), requests := [req] }
    | .ok (status, rbody) =>
      { result := .ok (passthroughResponse status rbody), requests := [req] }

/-- `format!("wss://{}.allnodes.me:8546/{}", chain, &self.api_key)`. -/
def allnodesWsUri (chain api_key : String) : String :=
  "wss://" ++ chain ++ ".allnodes.me:8546/" ++ api_key

/-- `AllnodesWsProvider::proxy` (src/providers/allnodes.rs lines 55-75):
chain lookup, outbound `connect_async` to the wss URI (failure mapped to
`RpcError::AxumTungstenite`), and only then `ws.on_upgrade` completing the
inbound upgrade and starting the bridging task. -/
def AllnodesWsProvider.proxy (supported_chains : List (String × String))
    (api_key : String) (connect : String → Except Nat Unit)
    (chain_id : String) : WsProxyOutcome :=
  match supported_chains.lookup chain_id with
  | none =>
    { result := .error .ChainNotFound, connectAttempts := [], upgradeCompleted := false }
  | some chain =>
    let uri := allnodesWsUri chain api_key
    match connect uri with
    | .error e =>
      { result := .error (.AxumTungstenite e), connectAttempts := [uri],
        upgradeCompleted := false }
    | .ok _ =>
      { result := .ok uri, connectAttempts := [uri], upgradeCompleted := true }

/-- `RateLimited for AllnodesProvider` (lines 102-107): reads the status,
compares with 429; the second component models that the `&mut Response` is
left unmodified. -/
def AllnodesProvider.is_rate_limited (response : Response) : Bool × Response :=
  (response.status == 429, response)

/-- `RateLimited for AllnodesWsProvider` (lines 78-86). -/
def AllnodesWsProvider.is_rate_limited (response : Response) : Bool × Response :=
  (response.status == 429, response)

/-- `RateLimited for PublicnodeProvider` (src/providers/publicnode.rs lines
37-42). -/
def PublicnodeProvider.is_rate_limited (response : Response) : Bool × Response :=
  (response.status == 429, response)

/-- The `ExchangeError` enum of src/handlers/wallet/exchanges/mod.rs. -/
inductive ExchangeError where
  | ConfigurationError (m : String)
  | ValidationError (m : String)
  | GetPayUrlError (m : String)
  | FeatureNotEnabled (m : String)
  | InternalError (m : String)
deriving DecidableEq, Repr

/-- Modelled from the spec: `crypto::constant_time_eq` lives in
src/utils/crypto.rs, which is not among the given sources: a
timing-safe string equality, functionally plain equality. -/
def constant_time_eq (a b : String) : Bool :=
  a == b

/-- The allow-list tail of `is_feature_enabled_for_project_id` (lines
185-200): absent list fails with `FeatureNotEnabled`, a list not containing
the project id fails with `FeatureNotEnabled`, otherwise `Ok(())`. -/
def allowlistCheck (allowed_project_ids : Option (List String))
    (project_id : String) : Except ExchangeError Unit :=
  match allowed_project_ids with
  | none => .error (.FeatureNotEnabled "Feature is not enabled")
  | some allowed =>
    if !(allowed.contains project_id) then
      .error (.FeatureNotEnabled "Project is not allowed to use this feature")
    else
      .ok ()

/-- `is_feature_enabled_for_project_id` (src/handlers/wallet/exchanges/mod.rs
lines 175-201): an early `Ok(())` when the configured testing project id
matches, else the allow-list check. -/
def is_feature_enabled_for_project_id (testing_project_id : Option String)
    (allowed_project_ids : Option (List String))
    (project_id : String) : Except ExchangeError Unit :=
  match testing_project_id with
  | some t =>
    if constant_time_eq t project_id then .ok ()
    else allowlistCheck allowed_project_ids project_id
  | none => allowlistCheck allowed_project_ids project_id

/-- The outbound-URL template exactly as claim C8 states it:
`https://{mapped-chain-token}.{provider-domain}[:{port}]/{credential}` with
an optional port and a mandatory credential path segment. -/
def specUrlTemplate (token dom : String) (port : Option Nat) (cred : String) : String :=
  "https://" ++ token ++ "." ++ dom ++
    (match port with
     | some p => ":" ++ toString p
     | none => "") ++ "/" ++ cred

/-- The amended outbound-URL template: as `specUrlTemplate` but the
credential path segment is also optional (absent for Publicnode). -/
def specUrlTemplateOpt (token dom : String) (port : Option Nat)
    (cred : Option String) : String :=
  "https://" ++ token ++ "." ++ dom ++
    (match port with
     | some p => ":" ++ toString p
     | none => "") ++
    (match cred with
     | some c => "/" ++ c
     | none => "")

/-- A simple concrete parse oracle used by witnesses and counterexamples:
every body parses to a JSON-RPC response with the given error member. -/
def constParse (err : Option JsonrpcError) : Bytes → Option JsonrpcResponse :=
  fun _ => some { error := err }

theorem str_data_append (a b : String) : (a ++ b).data = a.data ++ b.data := rfl

theorem str_length_append (a b : String) : (a ++ b).length = a.length + b.length :=
  List.length_append a.data b.data

theorem allnodesHttpUri_template (chain key : String) :
    allnodesHttpUri chain key
      = specUrlTemplateOpt chain "allnodes.me" (some 8545) (some key) := by
  apply String.ext
  simp only [allnodesHttpUri, specUrlTemplateOpt, str_data_append, List.append_assoc]
  congr 2

theorem publicnodeUri_template (chain : String) :
    publicnodeUri chain = specUrlTemplateOpt chain "publicnode.com" none none := by
  apply String.ext
  simp only [publicnodeUri, specUrlTemplateOpt, str_data_append, List.append_assoc]
  congr 2

theorem allnodes_requests_eq (sc : List (String × String)) (api_key : String)
    (parse : Bytes → Option JsonrpcResponse)
    (upstream : OutboundRequest → Except Nat (Nat × Bytes))
    (chain_id chain : String) (body : Bytes)
    (hchain : sc.lookup chain_id = some chain) :
    (AllnodesProvider.proxy sc api_key parse upstream chain_id body).requests
      = [allnodesRequest chain api_key body] := by
  unfold AllnodesProvider.proxy
  rw [hchain]
  dsimp only
  repeat' split
  all_goals rfl

theorem publicnode_requests_eq (sc : List (String × String))
    (upstream : OutboundRequest → Except Nat (Nat × Bytes))
    (chain_id chain : String) (body : Bytes)
    (hchain : sc.lookup chain_id = some chain) :
    (PublicnodeProvider.proxy sc upstream chain_id body).requests
      = [publicnodeRequest chain body] := by
  unfold PublicnodeProvider.proxy
  rw [hchain]
  dsimp only
  repeat' split
  all_goals rfl

/-- C1: when the chain is supported, the upstream answers with a success
status, and the body parses as a JSON-RPC response whose error has an
internal-error code and a rate-limit message, `AllnodesProvider::proxy`
returns HTTP 429 carrying the original body bytes unchanged. (Amended from
the claim: of the two HTTP forwarding providers only Allnodes performs this
reclassification; Publicnode passes the response through, see the
counterexample.) -/
theorem allnodes_rate_limit_reclassify_429 (sc : List (String × String))
    (api_key : String) (parse : Bytes → Option JsonrpcResponse)
    (upstream : OutboundRequest → Except Nat (Nat × Bytes))
    (chain_id chain : String) (body : Bytes) (status : Nat) (rbody : Bytes)
    (jr : JsonrpcResponse) (err : JsonrpcError)
    (hchain : sc.lookup chain_id = some chain)
    (hup : upstream (allnodesRequest chain api_key body) = .ok (status, rbody))
    (hst : statusIsSuccess status = true)
    (hparse : parse rbody = some jr)
    (herr : jr.error = some err)
    (hcode : is_internal_error_rpc_code err.code = true)
    (hmsg : is_rate_limited_error_rpc_message err.message = true) :
    (AllnodesProvider.proxy sc api_key parse upstream chain_id body).result
      = .ok (bytesResponse 429 rbody) := by
  simp only [AllnodesProvider.proxy, hchain, hup, hst, hparse, herr, hcode, hmsg, if_true]

/-- C1 witness: a concrete run through the 429 reclassification. -/
theorem allnodes_rate_limit_reclassify_429_witness :
    (AllnodesProvider.proxy [("eip155:1", "ethereum")] "KEY"
        (constParse (some ⟨-32603, "Too Many Requests"⟩))
        (fun _ => .ok (204, [9])) "eip155:1" [0]).result
      = .ok (bytesResponse 429 [9]) :=
  allnodes_rate_limit_reclassify_429 [("eip155:1", "ethereum")] "KEY"
    (constParse (some ⟨-32603, "Too Many Requests"⟩))
    (fun _ => .ok (204, [9])) "eip155:1" "ethereum" [0] 204 [9]
    { error := some ⟨-32603, "Too Many Requests"⟩ } ⟨-32603, "Too Many Requests"⟩
    rfl rfl (by decide) rfl rfl (by decide) (by decide)

/-- C1 counterexample: with identical upstream behaviour (HTTP 200 carrying
a rate-limited internal JSON-RPC error), Allnodes reclassifies to 429 but
Publicnode returns the original 200: the claim is false for "every HTTP
forwarding provider". -/
theorem publicnode_rate_limit_not_reclassified :
    (AllnodesProvider.proxy [("eip155:1", "eth")] "KEY"
        (constParse (some ⟨-32603, "rate limit exceeded"⟩))
        (fun _ => .ok (200, [1, 2])) "eip155:1" [0]).result
      = .ok (bytesResponse 429 [1, 2]) ∧
    (PublicnodeProvider.proxy [("eip155:1", "eth")]
        (fun _ => .ok (200, [1, 2])) "eip155:1" [0]).result
      = .ok (passthroughResponse 200 [1, 2]) ∧
    (passthroughResponse 200 [1, 2]).status ≠ 429 :=
  ⟨rfl, rfl, by decide⟩

/-- C2: for `AllnodesProvider::proxy` on a success-status upstream response
whose body parses with an error member: an internal-error code with a
node-error (non rate-limit) message yields HTTP 500 with the body unchanged;
a rate-limit message takes precedence and yields 429; a non-internal error
code is passed through with the original status. (Amended from the claim:
only Allnodes classifies; Publicnode passes everything through, see the
counterexample.) -/
theorem allnodes_node_error_classification (sc : List (String × String))
    (api_key : String) (parse : Bytes → Option JsonrpcResponse)
    (upstream : OutboundRequest → Except Nat (Nat × Bytes))
    (chain_id chain : String) (body : Bytes) (status : Nat) (rbody : Bytes)
    (jr : JsonrpcResponse) (err : JsonrpcError)
    (hchain : sc.lookup chain_id = some chain)
    (hup : upstream (allnodesRequest chain api_key body) = .ok (status, rbody))
    (hst : statusIsSuccess status = true)
    (hparse : parse rbody = some jr)
    (herr : jr.error = some err) :
    ((is_internal_error_rpc_code err.code = true ∧
      is_rate_limited_error_rpc_message err.message = false ∧
      is_node_error_rpc_message err.message = true) →
      (AllnodesProvider.proxy sc api_key parse upstream chain_id body).result
        = .ok (bytesResponse 500 rbody)) ∧
    ((is_internal_error_rpc_code err.code = true ∧
      is_rate_limited_error_rpc_message err.message = true) →
      (AllnodesProvider.proxy sc api_key parse upstream chain_id body).result
        = .ok (bytesResponse 429 rbody)) ∧
    (is_internal_error_rpc_code err.code = false →
      (AllnodesProvider.proxy sc api_key parse upstream chain_id body).result
        = .ok (passthroughResponse status rbody)) := by
  refine ⟨?_, ?_, ?_⟩
  · rintro ⟨h1, h2, h3⟩
    simp [AllnodesProvider.proxy, hchain, hup, hst, hparse, herr, h1, h2, h3]
  · rintro ⟨h1, h2⟩
    simp [AllnodesProvider.proxy, hchain, hup, hst, hparse, herr, h1, h2]
  · intro h1
    simp [AllnodesProvider.proxy, hchain, hup, hst, hparse, herr, h1]

/-- C2 witness: a concrete run through the 500 (node-error)
classification. -/
theorem allnodes_node_error_classification_witness :
    (AllnodesProvider.proxy [("eip155:1", "ethereum")] "KEY"
        (constParse (some ⟨-32000, "Block Not Found"⟩))
        (fun _ => .ok (200, [5])) "eip155:1" [0]).result
      = .ok (bytesResponse 500 [5]) :=
  (allnodes_node_error_classification [("eip155:1", "ethereum")] "KEY"
    (constParse (some ⟨-32000, "Block Not Found"⟩))
    (fun _ => .ok (200, [5])) "eip155:1" "ethereum" [0] 200 [5]
    { error := some ⟨-32000, "Block Not Found"⟩ } ⟨-32000, "Block Not Found"⟩
    rfl rfl (by decide) rfl rfl).1 ⟨by decide, by decide, by decide⟩

/-- C2 counterexample: with identical upstream behaviour (HTTP 200 carrying
a node-error internal JSON-RPC error), Allnodes reclassifies to 500 but
Publicnode returns the original 200: the claim is false for "every HTTP
forwarding provider". -/
theorem publicnode_node_error_not_reclassified :
    (AllnodesProvider.proxy [("eip155:1", "eth")] "KEY"
        (constParse (some ⟨-32603, "block not found"⟩))
        (fun _ => .ok (200, [3, 4])) "eip155:1" [0]).result
      = .ok (bytesResponse 500 [3, 4]) ∧
    (PublicnodeProvider.proxy [("eip155:1", "eth")]
        (fun _ => .ok (200, [3, 4])) "eip155:1" [0]).result
      = .ok (passthroughResponse 200 [3, 4]) ∧
    (passthroughResponse 200 [3, 4]).status ≠ 500 :=
  ⟨rfl, rfl, by decide⟩

/-- C3: for a chain id absent from the supported-chain mapping, the Allnodes
HTTP proxy, the Publicnode HTTP proxy and the Allnodes WebSocket proxy all
return `ChainNotFound`, issue no outbound request and attempt no upstream
connection. -/
theorem chain_not_found_no_network_call (sc : List (String × String))
    (api_key : String) (parse : Bytes → Option JsonrpcResponse)
    (upstream : OutboundRequest → Except Nat (Nat × Bytes))
    (connect : String → Except Nat Unit) (chain_id : String) (body : Bytes)
    (h : sc.lookup chain_id = none) :
    AllnodesProvider.proxy sc api_key parse upstream chain_id body
      = { result := .error .ChainNotFound, requests := [] } ∧
    PublicnodeProvider.proxy sc upstream chain_id body
      = { result := .error .ChainNotFound, requests := [] } ∧
    AllnodesWsProvider.proxy sc api_key connect chain_id
      = { result := .error .ChainNotFound, connectAttempts := [],
          upgradeCompleted := false } := by
  unfold AllnodesProvider.proxy PublicnodeProvider.proxy AllnodesWsProvider.proxy
  rw [h]
  exact ⟨rfl, rfl, rfl⟩

/-- C3 witness: an unsupported chain id against a one-chain mapping. -/
theorem chain_not_found_no_network_call_witness :
    AllnodesProvider.proxy [("eip155:1", "eth")] "KEY" (constParse none)
        (fun _ => .ok (200, [])) "solana:mainnet" []
      = { result := .error .ChainNotFound, requests := [] } ∧
    PublicnodeProvider.proxy [("eip155:1", "eth")]
        (fun _ => .ok (200, [])) "solana:mainnet" []
      = { result := .error .ChainNotFound, requests := [] } ∧
    AllnodesWsProvider.proxy [("eip155:1", "eth")] "KEY"
        (fun _ => .ok ()) "solana:mainnet"
      = { result := .error .ChainNotFound, connectAttempts := [],
          upgradeCompleted := false } :=
  chain_not_found_no_network_call [("eip155:1", "eth")] "KEY" (constParse none)
    (fun _ => .ok (200, [])) (fun _ => .ok ()) "solana:mainnet" [] rfl

/-- C4: every response the HTTP proxies return carries `Content-Type:
application/json` EXCEPT the two reclassified cases: a reclassified 429 or
500 from Allnodes is built by the plain byte-body `into_response` and
carries `application/octet-stream`. Publicnode always returns
`application/json`. (Amended from the claim, which asserted
`application/json` for the reclassified responses as well; see the
counterexample.) -/
theorem content_type_per_path (sc : List (String × String)) (api_key : String)
    (parse : Bytes → Option JsonrpcResponse)
    (upstream : OutboundRequest → Except Nat (Nat × Bytes))
    (chain_id : String) (body : Bytes) (r rP : Response) :
    ((AllnodesProvider.proxy sc api_key parse upstream chain_id body).result = .ok r →
      r.contentType = some "application/json" ∨
        (r.contentType = some "application/octet-stream" ∧
          (r.status = 429 ∨ r.status = 500))) ∧
    ((PublicnodeProvider.proxy sc upstream chain_id body).result = .ok rP →
      rP.contentType = some "application/json") := by
  constructor
  · intro h
    unfold AllnodesProvider.proxy at h
    dsimp only at h
    repeat' split at h
    all_goals simp only [ProxyOutcome.result] at h
    all_goals
      first
        | exact Except.noConfusion h
        | (injection h with h
           subst h
           first
            | exact Or.inl rfl
            | exact Or.inr ⟨rfl, Or.inl rfl⟩
            | exact Or.inr ⟨rfl, Or.inr rfl⟩)
  · intro h
    unfold PublicnodeProvider.proxy at h
    dsimp only at h
    repeat' split at h
    all_goals simp only [ProxyOutcome.result] at h
    all_goals
      first
        | exact Except.noConfusion h
        | (injection h with h
           subst h
           exact rfl)

/-- C4 witness: a pass-through carries application/json. -/
theorem content_type_per_path_witness :
    passthroughResponse 200 [1] = passthroughResponse 200 [1] ∧
    (passthroughResponse 200 [1]).contentType = some "application/json" :=
  ⟨rfl, (content_type_per_path [("eip155:1", "eth")] "KEY" (constParse none)
      (fun _ => .ok (200, [1])) "eip155:1" [0]
      (passthroughResponse 200 [1]) (passthroughResponse 200 [1])).2 rfl⟩

/-- C4 counterexample: the reclassified 429 response from Allnodes carries
`Content-Type: application/octet-stream`, not `application/json` — the two
early returns skip the header insertion on lines 151-154. -/
theorem reclassified_response_content_type_not_json :
    (AllnodesProvider.proxy [("eip155:1", "eth")] "KEY"
        (constParse (some ⟨-32603, "rate limit exceeded"⟩))
        (fun _ => .ok (200, [1, 2])) "eip155:1" [0]).result
      = .ok (bytesResponse 429 [1, 2]) ∧
    (bytesResponse 429 [1, 2]).contentType = some "application/octet-stream" ∧
    some "application/octet-stream" ≠ some "application/json" :=
  ⟨rfl, rfl, by decide⟩

/-- C5: when the body does not parse as a JSON-RPC envelope, or parses with
no error member, both HTTP proxies return the original upstream status and
body unchanged as a successful (non-error) result. -/
theorem unparsed_body_passthrough (sc : List (String × String)) (api_key : String)
    (parse : Bytes → Option JsonrpcResponse)
    (upstream : OutboundRequest → Except Nat (Nat × Bytes))
    (chain_id chain : String) (body : Bytes)
    (status : Nat) (rbody : Bytes) (statusP : Nat) (rbodyP : Bytes)
    (hchain : sc.lookup chain_id = some chain)
    (hupA : upstream (allnodesRequest chain api_key body) = .ok (status, rbody))
    (hupP : upstream (publicnodeRequest chain body) = .ok (statusP, rbodyP))
    (hparse : parse rbody = none ∨ ∃ jr, parse rbody = some jr ∧ jr.error = none) :
    (AllnodesProvider.proxy sc api_key parse upstream chain_id body).result
      = .ok (passthroughResponse status rbody) ∧
    (PublicnodeProvider.proxy sc upstream chain_id body).result
      = .ok (passthroughResponse statusP rbodyP) := by
  constructor
  · rcases hparse with hp | ⟨jr, hp, he⟩
    · cases hs : statusIsSuccess status <;>
        simp [AllnodesProvider.proxy, hchain, hupA, hs, hp]
    · cases hs : statusIsSuccess status <;>
        simp [AllnodesProvider.proxy, hchain, hupA, hs, hp, he]
  · simp [PublicnodeProvider.proxy, hchain, hupP]

/-- C5 witness: a body that does not parse is passed through by both
proxies. -/
theorem unparsed_body_passthrough_witness :
    (AllnodesProvider.proxy [("eip155:1", "eth")] "KEY" (fun _ => none)
        (fun _ => .ok (201, [7])) "eip155:1" [0]).result
      = .ok (passthroughResponse 201 [7]) ∧
    (PublicnodeProvider.proxy [("eip155:1", "eth")]
        (fun _ => .ok (201, [7])) "eip155:1" [0]).result
      = .ok (passthroughResponse 201 [7]) :=
  unparsed_body_passthrough [("eip155:1", "eth")] "KEY" (fun _ => none)
    (fun _ => .ok (201, [7])) "eip155:1" "eth" [0] 201 [7] 201 [7]
    rfl rfl rfl (Or.inl rfl)

/-- C6: a non-2xx upstream status is passed through unchanged by both HTTP
proxies — the JSON-RPC body reclassification is applied only on the
success-status path, whatever the body parses to. -/
theorem non_success_status_passthrough (sc : List (String × String))
    (api_key : String) (parse : Bytes → Option JsonrpcResponse)
    (upstream : OutboundRequest → Except Nat (Nat × Bytes))
    (chain_id chain : String) (body : Bytes)
    (status : Nat) (rbody : Bytes) (statusP : Nat) (rbodyP : Bytes)
    (hchain : sc.lookup chain_id = some chain)
    (hupA : upstream (allnodesRequest chain api_key body) = .ok (status, rbody))
    (hupP : upstream (publicnodeRequest chain body) = .ok (statusP, rbodyP))
    (hst : statusIsSuccess status = false)
    (_hstP : statusIsSuccess statusP = false) :
    (AllnodesProvider.proxy sc api_key parse upstream chain_id body).result
      = .ok (passthroughResponse status rbody) ∧
    (PublicnodeProvider.proxy sc upstream chain_id body).result
      = .ok (passthroughResponse statusP rbodyP) := by
  constructor
  · simp [AllnodesProvider.proxy, hchain, hupA, hst]
  · simp [PublicnodeProvider.proxy, hchain, hupP]

/-- C6 witness: an upstream 503 whose body would classify as rate limited is
still passed through as 503. -/
theorem non_success_status_passthrough_witness :
    (AllnodesProvider.proxy [("eip155:1", "eth")] "KEY"
        (constParse (some ⟨-32603, "rate limit exceeded"⟩))
        (fun _ => .ok (503, [8])) "eip155:1" [0]).result
      = .ok (passthroughResponse 503 [8]) ∧
    (PublicnodeProvider.proxy [("eip155:1", "eth")]
        (fun _ => .ok (503, [8])) "eip155:1" [0]).result
      = .ok (passthroughResponse 503 [8]) :=
  non_success_status_passthrough [("eip155:1", "eth")] "KEY"
    (constParse (some ⟨-32603, "rate limit exceeded"⟩))
    (fun _ => .ok (503, [8])) "eip155:1" "eth" [0] 503 [8] 503 [8]
    rfl rfl rfl (by decide) (by decide)

/-- C7: for all three provider implementations, `is_rate_limited` is true
exactly when the response status is 429, and it leaves the response
unmodified. -/
theorem is_rate_limited_iff_status_429 (r : Response) :
    ((AllnodesProvider.is_rate_limited r).1 = true ↔ r.status = 429) ∧
    (AllnodesProvider.is_rate_limited r).2 = r ∧
    ((AllnodesWsProvider.is_rate_limited r).1 = true ↔ r.status = 429) ∧
    (AllnodesWsProvider.is_rate_limited r).2 = r ∧
    ((PublicnodeProvider.is_rate_limited r).1 = true ↔ r.status = 429) ∧
    (PublicnodeProvider.is_rate_limited r).2 = r := by
  simp [AllnodesProvider.is_rate_limited, AllnodesWsProvider.is_rate_limited,
    PublicnodeProvider.is_rate_limited]

/-- C8: for every supported chain id, each HTTP proxy issues exactly one
outbound POST with `Content-Type: application/json` and the inbound body
unchanged, whose URL follows
`https://{mapped-chain-token}.{provider-domain}[:{port}][/{credential}]`:
Allnodes uses port 8545 and embeds the API key as the path, Publicnode uses
the default port and no credential segment. (Amended from the claim, whose
template made the credential segment mandatory; Publicnode's URL has none,
see the counterexample.) -/
theorem outbound_request_shape (sc : List (String × String)) (api_key : String)
    (parse : Bytes → Option JsonrpcResponse)
    (upstream : OutboundRequest → Except Nat (Nat × Bytes))
    (chain_id chain : String) (body : Bytes)
    (hchain : sc.lookup chain_id = some chain) :
    (AllnodesProvider.proxy sc api_key parse upstream chain_id body).requests
      = [{ method := "POST",
           uri := specUrlTemplateOpt chain "allnodes.me" (some 8545) (some api_key),
           contentType := "application/json", body := body }] ∧
    (PublicnodeProvider.proxy sc upstream chain_id body).requests
      = [{ method := "POST",
           uri := specUrlTemplateOpt chain "publicnode.com" none none,
           contentType := "application/json", body := body }] := by
  constructor
  · rw [allnodes_requests_eq sc api_key parse upstream chain_id chain body hchain]
    simp [allnodesRequest, allnodesHttpUri_template]
  · rw [publicnode_requests_eq sc upstream chain_id chain body hchain]
    simp [publicnodeRequest, publicnodeUri_template]

/-- C8 witness: the concrete outbound requests for one supported chain. -/
theorem outbound_request_shape_witness :
    (AllnodesProvider.proxy [("eip155:1", "eth")] "KEY" (constParse none)
        (fun _ => .ok (200, [])) "eip155:1" [4, 2]).requests
      = [{ method := "POST",
           uri := specUrlTemplateOpt "eth" "allnodes.me" (some 8545) (some "KEY"),
           contentType := "application/json", body := [4, 2] }] ∧
    (PublicnodeProvider.proxy [("eip155:1", "eth")]
        (fun _ => .ok (200, [])) "eip155:1" [4, 2]).requests
      = [{ method := "POST",
           uri := specUrlTemplateOpt "eth" "publicnode.com" none none,
           contentType := "application/json", body := [4, 2] }] :=
  outbound_request_shape [("eip155:1", "eth")] "KEY" (constParse none)
    (fun _ => .ok (200, [])) "eip155:1" "eth" [4, 2] rfl

/-- C8 counterexample: Publicnode's outbound URL for the mapped token "eth"
is `https://eth.publicnode.com`, and no choice of optional port and
credential makes the claim's template
`https://{token}.{domain}[:{port}]/{credential}` (credential mandatory)
produce it. -/
theorem publicnode_uri_lacks_credential_segment :
    publicnodeUri "eth" = "https://eth.publicnode.com" ∧
    ¬ ∃ (port : Option Nat) (cred : String),
        publicnodeUri "eth" = specUrlTemplate "eth" "publicnode.com" port cred := by
  refine ⟨rfl, ?_⟩
  rintro ⟨port, cred, h⟩
  have hl := congrArg String.length h
  have e1 : ("https://" : String).length = 8 := by decide
  have e2 : ("eth" : String).length = 3 := by decide
  have e3 : (".publicnode.com" : String).length = 15 := by decide
  have e4 : ("." : String).length = 1 := by decide
  have e5 : ("publicnode.com" : String).length = 14 := by decide
  have e6 : ("/" : String).length = 1 := by decide
  have e7 : (":" : String).length = 1 := by decide
  cases port with
  | none =>
    simp only [specUrlTemplate, publicnodeUri, str_length_append,
      e1, e2, e3, e4, e5, e6] at hl
    omega
  | some p =>
    simp only [specUrlTemplate, publicnodeUri, str_length_append,
      e1, e2, e3, e4, e5, e6, e7] at hl
    omega

/-- C9: when the chain is supported, the WebSocket proxy first connects to
the upstream wss URL: if that connection fails, it returns the mapped
transport error (`AxumTungstenite`) and the inbound upgrade is never
completed; conversely the upgrade is completed only after a successful
upstream connection. -/
theorem ws_connect_before_upgrade (sc : List (String × String))
    (api_key : String) (connect : String → Except Nat Unit)
    (chain_id chain : String) (e : Nat)
    (hchain : sc.lookup chain_id = some chain) :
    (connect (allnodesWsUri chain api_key) = .error e →
      AllnodesWsProvider.proxy sc api_key connect chain_id
        = { result := .error (.AxumTungstenite e),
            connectAttempts := [allnodesWsUri chain api_key],
            upgradeCompleted := false }) ∧
    ((AllnodesWsProvider.proxy sc api_key connect chain_id).upgradeCompleted = true →
      connect (allnodesWsUri chain api_key) = .ok ()) := by
  unfold AllnodesWsProvider.proxy
  rw [hchain]
  dsimp only
  constructor
  · intro h
    rw [h]
  · intro h
    cases hc : connect (allnodesWsUri chain api_key) with
    | error x => rw [hc] at h; exact absurd h (by simp)
    | ok u => cases u; rfl

/-- C9 witness: a failing upstream connection surfaces as the transport
error and leaves the upgrade uncompleted. -/
theorem ws_connect_before_upgrade_witness :
    AllnodesWsProvider.proxy [("eip155:1", "eth")] "KEY"
        (fun _ => .error 7) "eip155:1"
      = { result := .error (.AxumTungstenite 7),
          connectAttempts := [allnodesWsUri "eth" "KEY"],
          upgradeCompleted := false } :=
  (ws_connect_before_upgrade [("eip155:1", "eth")] "KEY"
    (fun _ => .error 7) "eip155:1" "eth" 7 rfl).1 rfl

/-- C10: the feature gate accepts a project id equal to the configured
testing project id whatever the allow-list holds, and otherwise fails with
`FeatureNotEnabled` exactly when the allow-list is absent or does not
contain the project id. -/
theorem feature_gate_testing_and_allowlist (tpid : Option String)
    (apids : Option (List String)) (pid : String) :
    (tpid = some pid →
      is_feature_enabled_for_project_id tpid apids pid = .ok ()) ∧
    (tpid ≠ some pid →
      ((∃ m, is_feature_enabled_for_project_id tpid apids pid
          = .error (.FeatureNotEnabled m)) ↔
        (apids = none ∨ ∃ l, apids = some l ∧ pid ∉ l))) := by
  constructor
  · intro h
    rw [h]
    simp [is_feature_enabled_for_project_id, constant_time_eq]
  · intro hne
    have hgate : is_feature_enabled_for_project_id tpid apids pid
        = allowlistCheck apids pid := by
      cases tpid with
      | none => rfl
      | some t =>
        have ht : (t == pid) = false := by
          cases hb : t == pid with
          | false => rfl
          | true => exact absurd (by rw [eq_of_beq hb]) hne
        simp [is_feature_enabled_for_project_id, constant_time_eq, ht]
    rw [hgate]
    cases apids with
    | none =>
      simp [allowlistCheck]
    | some l =>
      by_cases hmem : pid ∈ l
      · simp [allowlistCheck, hmem]
      · simp [allowlistCheck, hmem]

/-- C10 witness: the testing project id is accepted with no allow-list
configured, and a different project id is then rejected. -/
theorem feature_gate_testing_and_allowlist_witness :
    is_feature_enabled_for_project_id (some "testing-id") none "testing-id"
      = .ok () ∧
    ((∃ m, is_feature_enabled_for_project_id (some "testing-id") none "other"
        = .error (.FeatureNotEnabled m)) ↔
      ((none : Option (List String)) = none ∨
        ∃ l, (none : Option (List String)) = some l ∧ "other" ∉ l)) :=
  ⟨(feature_gate_testing_and_allowlist (some "testing-id") none "testing-id").1 rfl,
   (feature_gate_testing_and_allowlist (some "testing-id") none "other").2 (by decide)⟩
